import Mathlib

/-!
# Verification of the posteract poster selection-and-retry decision engine

A shallow embedding, in Lean 4, of the decision core of the `posteract`
repository: the provider adapters (`services/tmdb_service.py`,
`services/fanart_service.py`), the selection resolver
(`services/orchestrator_service.py`), the Poster Outcome Cache
(`core/poster_repository.py` over the `poster_cache` table of
`core/database.py`), the Job State store (`utils/db.py`), the workflow
coordinator and batch runner (`services/poster_workflow.py`).

Python values are embedded as follows: `Optional[int]` / `Optional[str]`
become `Option Int` / `Option String`; Python truthiness of such values
(`if not x`, `x or y`) is embedded explicitly (`None` and `0` and `""` are
falsy); SQLite tables become lists of row structures; wall-clock timestamps
become integer seconds supplied as a `now` parameter; exceptions become
`Except` values; the external collaborators (HTTP download, overlay
compositing, the Plex catalogue, the two metadata providers) become
function-valued parameters whose invocations are logged in an explicit
world state.
-/

namespace Posteract

/-- Python truthiness of an `Optional[str]`: `None` and `""` are falsy. -/
def pyTruthyStr : Option String → Bool
  | none => false
  | some s => !(s == "")

/-- Python truthiness of an `Optional[int]`: `None` and `0` are falsy. -/
def pyTruthyNat : Option Nat → Bool
  | none => false
  | some n => !(n == 0)

/-- Python `x or default` for an `Optional[str]` `x`: falsy values (`None`,
`""`) are replaced by the default. -/
def pyOrStr (x : Option String) (d : String) : String :=
  match x with
  | none => d
  | some s => if s == "" then d else s

/-! ## Poster Outcome Cache (`core/poster_repository.py`, `core/database.py`)

The `poster_cache` table (schema in `core/database.py`) has one column set
per row; `tmdb_id` is the primary key.  The table is embedded as a
`List CacheRow`; `save_result`'s `INSERT ... ON CONFLICT(tmdb_id) DO UPDATE`
updates the matching row in place when one exists and appends otherwise.
`CURRENT_TIMESTAMP` is the `now` parameter (seconds). -/

structure CacheRow where
  tmdb_id : Nat
  media_type : String
  wanted_type : String
  actual_type : String
  poster_url : String
  last_checked : Int
deriving DecidableEq, Repr

/-- `PosterRepository.save_result`: upsert keyed on `tmdb_id`
(`INSERT ... ON CONFLICT(tmdb_id) DO UPDATE SET ...`). -/
def save_result (table : List CacheRow) (now : Int) (tmdbId : Nat)
    (mediaType wantedType actualType posterUrl : String) : List CacheRow :=
  if table.any (fun r => r.tmdb_id == tmdbId) then
    table.map (fun r =>
      if r.tmdb_id == tmdbId then
        { tmdb_id := tmdbId, media_type := mediaType, wanted_type := wantedType,
          actual_type := actualType, poster_url := posterUrl, last_checked := now }
      else r)
  else
    table ++ [{ tmdb_id := tmdbId, media_type := mediaType, wanted_type := wantedType,
                actual_type := actualType, poster_url := posterUrl, last_checked := now }]

/-- `PosterRepository.get`: `SELECT * FROM poster_cache WHERE tmdb_id = ?`
(returns the unique matching row of a well-formed table, if any). -/
def cache_get (table : List CacheRow) (tmdbId : Nat) : Option CacheRow :=
  table.find? (fun r => r.tmdb_id == tmdbId)

/-- `PosterRepository.needs_retry`: the record exists, `actual_type`
differs from the wanted type, and `last_checked` is at least
`retry_after_days` old (`datetime.now() - last_dt >= timedelta(days=...)`,
one day being 86400 seconds). -/
def needs_retry (table : List CacheRow) (now : Int) (tmdbId : Nat)
    (retryAfterDays : Nat) (wantedType : String) : Bool :=
  match cache_get table tmdbId with
  | none => false
  | some row =>
    if row.actual_type == wantedType then false
    else decide ((retryAfterDays : Int) * 86400 ≤ now - row.last_checked)

/-- The schema invariant of `poster_cache`: `tmdb_id` is the primary key,
so at most one row per subject id. -/
def CacheWF (table : List CacheRow) : Prop :=
  ∀ k : Nat, (table.filter (fun r => r.tmdb_id == k)).length ≤ 1

theorem filter_key_map_replace (t : List CacheRow) (new : CacheRow) (tmdbId k : Nat)
    (hnew : new.tmdb_id = tmdbId) :
    ((t.map (fun r => if r.tmdb_id == tmdbId then new else r)).filter
        (fun r => r.tmdb_id == k))
      = (t.filter (fun r => r.tmdb_id == k)).map
          (fun r => if r.tmdb_id == tmdbId then new else r) := by
  rw [List.filter_map]
  congr 1
  apply List.filter_congr
  intro r _
  by_cases hr : r.tmdb_id = tmdbId
  · simp [Function.comp, hr, hnew]
  · simp [Function.comp, hr]

theorem save_result_filter_ne (table : List CacheRow) (now : Int) (tmdbId k : Nat)
    (mt wt at' url : String) (hk : k ≠ tmdbId) :
    ((save_result table now tmdbId mt wt at' url).filter (fun r => r.tmdb_id == k))
      = table.filter (fun r => r.tmdb_id == k) := by
  unfold save_result
  split
  · rw [filter_key_map_replace table _ tmdbId k rfl]
    conv_rhs => rw [(List.map_id (table.filter (fun r => r.tmdb_id == k))).symm]
    apply List.map_congr_left
    intro r hr
    have hrk : r.tmdb_id = k := by simpa using (List.of_mem_filter hr)
    rw [if_neg]
    · rfl
    · simp [hrk]
      omega
  · rw [List.filter_append]
    have h1 : (([{ tmdb_id := tmdbId, media_type := mt, wanted_type := wt,
                   actual_type := at', poster_url := url, last_checked := now }] :
            List CacheRow).filter (fun r => r.tmdb_id == k)) = [] := by
      simp
      omega
    rw [h1, List.append_nil]

theorem save_result_filter_eq (table : List CacheRow) (now : Int) (tmdbId : Nat)
    (mt wt at' url : String) (hwf : CacheWF table) :
    ((save_result table now tmdbId mt wt at' url).filter (fun r => r.tmdb_id == tmdbId))
      = [{ tmdb_id := tmdbId, media_type := mt, wanted_type := wt,
           actual_type := at', poster_url := url, last_checked := now }] := by
  unfold save_result
  split
  case isTrue hany =>
    rw [filter_key_map_replace table _ tmdbId tmdbId rfl]
    have hone : (table.filter (fun r => r.tmdb_id == tmdbId)).length = 1 := by
      have hle : (table.filter (fun r => r.tmdb_id == tmdbId)).length ≤ 1 := hwf tmdbId
      obtain ⟨x, hx, hpx⟩ := List.any_eq_true.mp hany
      have hmem : x ∈ table.filter (fun r => r.tmdb_id == tmdbId) :=
        List.mem_filter.mpr ⟨hx, hpx⟩
      have hpos : 0 < (table.filter (fun r => r.tmdb_id == tmdbId)).length :=
        List.length_pos.mpr (List.ne_nil_of_mem hmem)
      omega
    obtain ⟨x, hx⟩ := List.length_eq_one.mp hone
    rw [hx]
    have hxid : x.tmdb_id = tmdbId := by
      have hmem : x ∈ table.filter (fun r => r.tmdb_id == tmdbId) := by simp [hx]
      simpa using List.of_mem_filter hmem
    simp [hxid]
  case isFalse hany =>
    have hfil : (table.filter (fun r => r.tmdb_id == tmdbId)) = [] := by
      rw [List.filter_eq_nil_iff]
      intro a ha h
      exact hany (List.any_eq_true.mpr ⟨a, ha, h⟩)
    rw [List.filter_append, hfil, List.nil_append]
    simp

theorem save_result_preserves_wf (table : List CacheRow) (now : Int) (tmdbId : Nat)
    (mt wt at' url : String) (hwf : CacheWF table) :
    CacheWF (save_result table now tmdbId mt wt at' url) := by
  intro k
  by_cases hk : k = tmdbId
  · subst hk
    rw [save_result_filter_eq table now k mt wt at' url hwf]
    simp
  · rw [save_result_filter_ne table now tmdbId k mt wt at' url hk]
    exact hwf k

/-- **C6.** `needs_retry` returns true iff an Outcome Cache entry for the
subject id exists, its actual mode differs from the wanted mode, and its
last-checked timestamp is at least the retry interval (in days) old; an
entry whose actual mode equals the wanted mode is never eligible,
regardless of age. -/
theorem needs_retry_iff (table : List CacheRow) (now : Int) (tmdbId : Nat)
    (retryAfterDays : Nat) (wantedType : String) :
    (needs_retry table now tmdbId retryAfterDays wantedType = true ↔
      ∃ row, cache_get table tmdbId = some row ∧ row.actual_type ≠ wantedType ∧
        (retryAfterDays : Int) * 86400 ≤ now - row.last_checked) ∧
    (∀ row, cache_get table tmdbId = some row → row.actual_type = wantedType →
      needs_retry table now tmdbId retryAfterDays wantedType = false) := by
  constructor
  · unfold needs_retry
    cases h : cache_get table tmdbId with
    | none => simp
    | some row =>
      by_cases ha : row.actual_type = wantedType
      · simp [ha]
      · simp [ha]
  · intro row h ha
    unfold needs_retry
    rw [h]
    simp [ha]

/-- Witness for C6, realizing the spec scenario: an entry with
wanted="textless", actual="tmdb_any", last checked 10 days before `now`, is
eligible at a 7-day interval, not at a 14-day interval; an entry whose
actual type equals the wanted type is not eligible even when ancient. -/
theorem needs_retry_iff_witness :
    (needs_retry [{ tmdb_id := 603, media_type := "movie", wanted_type := "textless",
                    actual_type := "tmdb_any", poster_url := "u", last_checked := 0 }]
        (10 * 86400) 603 7 "textless" = true) ∧
    (needs_retry [{ tmdb_id := 603, media_type := "movie", wanted_type := "textless",
                    actual_type := "tmdb_any", poster_url := "u", last_checked := 0 }]
        (10 * 86400) 603 14 "textless" = false) ∧
    (needs_retry [{ tmdb_id := 603, media_type := "movie", wanted_type := "textless",
                    actual_type := "textless", poster_url := "u", last_checked := 0 }]
        (10000 * 86400) 603 7 "textless" = false) :=
  ⟨(needs_retry_iff _ (10 * 86400) 603 7 "textless").1.mpr
      ⟨_, rfl, by decide, by decide⟩,
   by decide,
   (needs_retry_iff _ (10000 * 86400) 603 7 "textless").2 _ rfl rfl⟩

/-- **C7.** Outcome Cache `save_result` is an upsert keyed on subject id:
it preserves the at-most-one-row-per-subject-id invariant, and saving
twice for the same subject id leaves exactly one row for that id, holding
the values of the later save. -/
theorem save_result_upsert (table : List CacheRow) (hwf : CacheWF table)
    (now1 now2 : Int) (tmdbId : Nat)
    (mt1 wt1 act1 u1 mt2 wt2 act2 u2 : String) :
    CacheWF (save_result table now1 tmdbId mt1 wt1 act1 u1) ∧
    ((save_result (save_result table now1 tmdbId mt1 wt1 act1 u1)
          now2 tmdbId mt2 wt2 act2 u2).filter (fun r => r.tmdb_id == tmdbId))
      = [{ tmdb_id := tmdbId, media_type := mt2, wanted_type := wt2,
           actual_type := act2, poster_url := u2, last_checked := now2 }] :=
  ⟨save_result_preserves_wf table now1 tmdbId mt1 wt1 act1 u1 hwf,
   save_result_filter_eq _ now2 tmdbId mt2 wt2 act2 u2
     (save_result_preserves_wf table now1 tmdbId mt1 wt1 act1 u1 hwf)⟩

/-- Witness for C7: from an empty table, saving subject id 603 with actual
type "textless" and then with actual type "tmdb_any" leaves exactly one row
for id 603, holding the second save values. -/
theorem save_result_upsert_witness :
    ((save_result (save_result [] 5 603 "movie" "textless" "textless" "u1")
          9 603 "movie" "textless" "tmdb_any" "u2").filter (fun r => r.tmdb_id == 603))
      = [{ tmdb_id := 603, media_type := "movie", wanted_type := "textless",
           actual_type := "tmdb_any", poster_url := "u2", last_checked := 9 }] :=
  (save_result_upsert [] (fun k => by simp)
    5 9 603 "movie" "textless" "textless" "u1" "movie" "textless" "tmdb_any" "u2").2

/-! ## Provider adapters (`services/tmdb_service.py`, `services/fanart_service.py`)

`PosterResult` is the dataclass shared (name-wise) by both services: a
fetch URL and a selection-mode tag. -/

structure PosterResult where
  url : String
  type : String
deriving DecidableEq, Repr

/-- One entry of the TMDB `posters` metadata list: `p.get("iso_639_1")`
(language tag or null) and `p.get("file_path")`; a missing key and an
explicit null both embed to `none`. -/
structure TmdbPoster where
  iso_639_1 : Option String
  file_path : Option String
deriving DecidableEq, Repr

/-- `TmdbService.get_poster`, with the provider response (`posters` list)
and the image base URL as parameters.  Mirrors the source: an empty list
returns `None`; under mode `"textless"` the first candidate with
`iso_639_1 is None` and a truthy `file_path`; under `"tmdb_en"` /
`"tmdb_pt"` the first with the matching language code (for `"pt"` also
`"pt-BR"`) and a truthy `file_path`; under `"tmdb_any"` the head of the
list, if its `file_path` is truthy; any other mode falls through to
`None`. -/
def get_poster (imageBase : String) (posters : List TmdbPoster) (mode : String) :
    Option PosterResult :=
  if posters.isEmpty then none
  else
    match (if mode == "textless" then
        (posters.find? (fun p => p.iso_639_1.isNone && pyTruthyStr p.file_path)).map
          (fun p => { url := imageBase ++ p.file_path.getD "", type := "textless" })
      else none) with
    | some r => some r
    | none =>
      match (if mode == "tmdb_en" then
          (posters.find? (fun p => p.iso_639_1 == some "en" && pyTruthyStr p.file_path)).map
            (fun p => { url := imageBase ++ p.file_path.getD "", type := "tmdb_en" })
        else none) with
      | some r => some r
      | none =>
        match (if mode == "tmdb_pt" then
            (posters.find? (fun p =>
                (p.iso_639_1 == some "pt" || p.iso_639_1 == some "pt-BR")
                  && pyTruthyStr p.file_path)).map
              (fun p => { url := imageBase ++ p.file_path.getD "", type := "tmdb_pt" })
          else none) with
        | some r => some r
        | none =>
          if mode == "tmdb_any" then
            match posters with
            | [] => none
            | p :: _ =>
              if pyTruthyStr p.file_path then
                some { url := imageBase ++ p.file_path.getD "", type := "tmdb_any" }
              else none
          else none

/-- The textless acceptance test of the source code: null language tag and
a truthy file path. -/
def isTextlessPick (p : TmdbPoster) : Bool :=
  p.iso_639_1.isNone && pyTruthyStr p.file_path

/-- The claimed acceptance test, following the spec words for C8: first
candidate whose declared language tag is "empty or null" (no condition on
the file path). -/
def specEmptyOrNullLang (p : TmdbPoster) : Bool :=
  p.iso_639_1 == none || p.iso_639_1 == some ""

theorem find?_eq_get_of_first {p : TmdbPoster → Bool} (posters : List TmdbPoster)
    (j : Nat) (hj : j < posters.length)
    (hpick : p (posters.get ⟨j, hj⟩) = true)
    (hbefore : ∀ k (hk : k < j), p (posters.get ⟨k, Nat.lt_trans hk hj⟩) = false) :
    posters.find? p = some (posters.get ⟨j, hj⟩) := by
  induction posters generalizing j with
  | nil => exact absurd hj (by simp)
  | cons q rest ih =>
    cases j with
    | zero =>
      rw [List.find?_cons_of_pos _ (by simpa using hpick)]
      rfl
    | succ j =>
      have hq : p q = false := hbefore 0 (Nat.succ_pos j)
      rw [List.find?_cons_of_neg _ (by simp [hq])]
      exact ih j (by simpa using hj) (by simpa using hpick)
        (fun k hk => hbefore (k + 1) (by omega))
/-- **C8 (counterexample).** The claim says mode "textless" selects the
first candidate whose language tag is empty *or* null.  The source only
accepts `iso_639_1 is None`: a candidate whose declared tag is the empty
string (and which has a valid file path) is skipped, and here the adapter
returns nothing at all. -/
theorem get_poster_textless_counterexample :
    get_poster "https://image.tmdb.org/t/p/original"
        [{ iso_639_1 := some "", file_path := some "/a.jpg" }] "textless" = none ∧
    specEmptyOrNullLang { iso_639_1 := some "", file_path := some "/a.jpg" } = true :=
  ⟨rfl, rfl⟩

/-- **C8 (amended).** Under mode "textless" the TMDB adapter returns the
first candidate in provider order whose declared language tag is null
(missing) — an empty-string tag does not count — and whose file path is
non-empty; in particular, of two candidates with languages ["fr", null] it
returns the null-language one (see the witness). -/
theorem get_poster_textless_amended (imageBase : String) (posters : List TmdbPoster)
    (j : Nat) (hj : j < posters.length)
    (hpick : isTextlessPick (posters.get ⟨j, hj⟩) = true)
    (hbefore : ∀ k (hk : k < j), isTextlessPick (posters.get ⟨k, Nat.lt_trans hk hj⟩) = false) :
    get_poster imageBase posters "textless"
      = some { url := imageBase ++ (posters.get ⟨j, hj⟩).file_path.getD "",
               type := "textless" } := by
  have hne : posters.isEmpty = false := by
    cases posters
    · exact absurd hj (by simp)
    · rfl
  have hfind : posters.find? (fun p => p.iso_639_1.isNone && pyTruthyStr p.file_path)
      = some (posters.get ⟨j, hj⟩) :=
    find?_eq_get_of_first posters j hj hpick hbefore
  unfold get_poster
  rw [hne, hfind]
  rfl

/-- Witness for C8 (amended), realizing the spec scenario: candidates with
languages ["fr", null], both with file paths, under mode "textless" — the
null-language candidate at index 1 is returned. -/
theorem get_poster_textless_amended_witness :
    get_poster "B" [{ iso_639_1 := some "fr", file_path := some "/fr.jpg" },
                    { iso_639_1 := none, file_path := some "/null.jpg" }] "textless"
      = some { url := "B" ++ "/null.jpg", type := "textless" } :=
  get_poster_textless_amended "B"
    [{ iso_639_1 := some "fr", file_path := some "/fr.jpg" },
     { iso_639_1 := none, file_path := some "/null.jpg" }] 1 (by decide) (by decide)
    (fun k hk => by
      have hk0 : k = 0 := by omega
      subst hk0
      rfl)

/-! ## Fanart adapter (`services/fanart_service.py`) -/

/-- One entry of the Fanart.tv `movieposter` list: `p.get("url")` and the
popularity score `int(p.get("likes", 0))` (already parsed to an integer;
a missing key embeds to 0 upstream of this model). -/
structure FanartPoster where
  url : Option String
  likes : Int
deriving DecidableEq, Repr

/-- One insertion step of a stable descending sort on `likes`: the new
element goes in front of the first already-placed element it strictly
beats or ties (the new element ranks earlier in provider order than
everything to its right at insertion time, so ties keep provider order). -/
def insertByLikes (p : FanartPoster) : List FanartPoster → List FanartPoster
  | [] => [p]
  | q :: rest => if q.likes ≤ p.likes then p :: q :: rest else q :: insertByLikes p rest

/-- Embeds `sorted(posters, key=..., reverse=True)` over the `likes` key —
Python's `sorted` is stable, also with `reverse=True`, so on the total
preorder given by `likes` it coincides with this stable descending
insertion sort. -/
def sortByLikesDesc : List FanartPoster → List FanartPoster
  | [] => []
  | p :: rest => insertByLikes p (sortByLikesDesc rest)

/-- `FanartService.get_movie_textless`, with the client/enabled guard as a
single flag and the parsed `movieposter` list as a parameter: sort by
likes descending, take the head, return its URL if truthy. -/
def get_movie_textless (clientEnabled : Bool) (posters : List FanartPoster) :
    Option PosterResult :=
  if !clientEnabled then none
  else if posters.isEmpty then none
  else
    match sortByLikesDesc posters with
    | [] => none
    | best :: _ =>
      match best.url with
      | some u => if u == "" then none else some { url := u, type := "fanart_poster" }
      | none => none

/-- The claimed selection, following the spec words for C9: the candidate
with the highest popularity score, ties broken by original provider order
(the earlier candidate wins a tie). -/
def firstMaxByLikes : List FanartPoster → Option FanartPoster
  | [] => none
  | p :: rest =>
    match firstMaxByLikes rest with
    | none => some p
    | some q => if p.likes < q.likes then some q else some p

theorem head?_insertByLikes (p : FanartPoster) (s : List FanartPoster) :
    (insertByLikes p s).head? =
      some (match s.head? with
            | none => p
            | some q => if q.likes ≤ p.likes then p else q) := by
  cases s with
  | nil => rfl
  | cons q rest =>
    unfold insertByLikes
    by_cases h : q.likes ≤ p.likes
    · simp [h]
    · simp [h]


theorem head?_sortByLikesDesc (l : List FanartPoster) :
    (sortByLikesDesc l).head? = firstMaxByLikes l := by
  induction l with
  | nil => rfl
  | cons p rest ih =>
    unfold sortByLikesDesc firstMaxByLikes
    rw [head?_insertByLikes, ← ih]
    cases hs : (sortByLikesDesc rest).head? with
    | none => rfl
    | some q =>
      show some (if q.likes ≤ p.likes then p else q)
        = if p.likes < q.likes then some q else some p
      by_cases h : q.likes ≤ p.likes
      · rw [if_pos h, if_neg (by omega)]
      · rw [if_neg h, if_pos (by omega)]

theorem firstMaxByLikes_eq_none (l : List FanartPoster) :
    firstMaxByLikes l = none ↔ l = [] := by
  cases l with
  | nil => simp [firstMaxByLikes]
  | cons p rest =>
    constructor
    · intro h
      exfalso
      unfold firstMaxByLikes at h
      cases hr : firstMaxByLikes rest with
      | none =>
        rw [hr] at h
        have h2 : some p = (none : Option FanartPoster) := h
        simp at h2
      | some q =>
        rw [hr] at h
        have h2 : (if p.likes < q.likes then some q else some p)
            = (none : Option FanartPoster) := h
        split at h2 <;> simp at h2
    · intro h
      exact absurd h (by simp)

theorem firstMaxByLikes_mem (l : List FanartPoster) (b : FanartPoster)
    (h : firstMaxByLikes l = some b) : b ∈ l := by
  induction l generalizing b with
  | nil => simp [firstMaxByLikes] at h
  | cons p rest ih =>
    unfold firstMaxByLikes at h
    cases hr : firstMaxByLikes rest with
    | none =>
      rw [hr] at h
      have h2 : some p = some b := h
      simp [(Option.some_inj.mp h2).symm]
    | some q =>
      rw [hr] at h
      have h2 : (if p.likes < q.likes then some q else some p) = some b := h
      by_cases hpq : p.likes < q.likes
      · rw [if_pos hpq] at h2
        right
        rw [← Option.some_inj.mp h2]
        exact ih q hr
      · rw [if_neg hpq] at h2
        have hbp : b = p := (Option.some_inj.mp h2).symm
        subst hbp
        exact List.mem_cons_self b rest

theorem firstMaxByLikes_maximal (l : List FanartPoster) (b : FanartPoster)
    (h : firstMaxByLikes l = some b) : ∀ p ∈ l, p.likes ≤ b.likes := by
  induction l generalizing b with
  | nil => simp
  | cons p rest ih =>
    intro x hx
    unfold firstMaxByLikes at h
    cases hr : firstMaxByLikes rest with
    | none =>
      rw [hr] at h
      have h2 : some p = some b := h
      have hb : b = p := (Option.some_inj.mp h2).symm
      have hrest : rest = [] := (firstMaxByLikes_eq_none rest).mp hr
      subst hrest
      rcases List.mem_cons.mp hx with hxp | hxr
      · subst hxp
        rw [hb]
      · simp at hxr
    | some q =>
      rw [hr] at h
      have h2 : (if p.likes < q.likes then some q else some p) = some b := h
      by_cases hpq : p.likes < q.likes
      · rw [if_pos hpq] at h2
        have hbq : b = q := (Option.some_inj.mp h2).symm
        subst hbq
        rcases List.mem_cons.mp hx with hxp | hxr
        · subst hxp
          omega
        · exact ih b hr x hxr
      · rw [if_neg hpq] at h2
        have hbp : b = p := (Option.some_inj.mp h2).symm
        subst hbp
        rcases List.mem_cons.mp hx with hxp | hxr
        · subst hxp
          omega
        · have hq := ih q hr x hxr
          omega

/-- **C9.** When the Fanart adapter has multiple candidates, it selects
the candidate with the highest popularity score, ties broken by original
provider order (stable sort): the head of the descending sort is exactly
`firstMaxByLikes`, a member of the list at least as popular as every other
candidate, and the adapter returns its URL (when truthy). -/
theorem get_movie_textless_best (posters : List FanartPoster) (h : posters ≠ []) :
    ∃ b, firstMaxByLikes posters = some b ∧ b ∈ posters ∧
      (∀ p ∈ posters, p.likes ≤ b.likes) ∧
      get_movie_textless true posters
        = (match b.url with
           | some u => if u == "" then none else some { url := u, type := "fanart_poster" }
           | none => none) := by
  cases hs : sortByLikesDesc posters with
  | nil =>
    exfalso
    have h1 : firstMaxByLikes posters = none := by
      rw [← head?_sortByLikesDesc, hs]
      rfl
    exact h ((firstMaxByLikes_eq_none posters).mp h1)
  | cons best tail =>
    have h1 : firstMaxByLikes posters = some best := by
      rw [← head?_sortByLikesDesc, hs]
      rfl
    refine ⟨best, h1, firstMaxByLikes_mem posters best h1,
      firstMaxByLikes_maximal posters best h1, ?_⟩
    have hne : posters.isEmpty = false := by
      cases posters
      · exact absurd rfl h
      · rfl
    unfold get_movie_textless
    rw [hne, hs]
    rfl

/-- Witness for C9, realizing the spec scenario: candidates with
popularity [10, 50, 30] — the popularity-50 candidate is returned. -/
theorem get_movie_textless_best_witness :
    get_movie_textless true
        [{ url := some "u1", likes := 10 }, { url := some "u2", likes := 50 },
         { url := some "u3", likes := 30 }]
      = some { url := "u2", type := "fanart_poster" } := by
  obtain ⟨b, hb, -, -, hres⟩ :=
    get_movie_textless_best
      [{ url := some "u1", likes := 10 }, { url := some "u2", likes := 50 },
       { url := some "u3", likes := 30 }] (by decide)
  have h2 : (some ({ url := some "u2", likes := 50 } : FanartPoster)) = some b := by
    calc some ({ url := some "u2", likes := 50 } : FanartPoster)
        = firstMaxByLikes
            [{ url := some "u1", likes := 10 }, { url := some "u2", likes := 50 },
             { url := some "u3", likes := 30 }] := by decide
      _ = some b := hb
  have hbv : b = { url := some "u2", likes := 50 } := (Option.some_inj.mp h2).symm
  subst hbv
  exact hres


/-! ## Data model (`core/models.py`) and selection resolver
(`services/orchestrator_service.py`)

The two provider adapters appear in the resolver as function parameters
`tmdbGet` (for `self.tmdb.get_poster`) and `fanartGet` (for
`self.fanart.get_movie_textless`); instantiating them with the adapter
embeddings above recovers the full stack.  The resolver is additionally
instrumented with a trace of the provider/mode queries it issues, so that
"never queries subsequent pairs after a hit" is expressible. -/

structure MediaItem where
  plex_id : Option Int
  title : String
  year : Option Int
  tmdb_id : Option Nat
  imdb_id : Option String := none
  tvdb_id : Option Nat := none
  media_type : String := "movie"
  poster_path : Option String := none
  collection_id : Option Nat := none
deriving DecidableEq, Repr

/-- `PosterTask` of `core/models.py` (the `last_update` wall-clock field is
not modeled). -/
structure PosterTask where
  item : MediaItem
  chosen_url : Option String := none
  source_type : Option String := none
  downloaded_file : Option String := none
  output_file : Option String := none
  status : String := "pending"
deriving DecidableEq, Repr

/-- A provider/mode query issued by the resolver: either the Fanart call
`fanart.get_movie_textless(tmdb_id)` or the TMDB call
`tmdb.get_poster(tmdb_id, mode=pref)`. -/
inductive Query where
  | fanartQ (tmdbId : Nat)
  | tmdbQ (tmdbId : Nat) (mode : String)
deriving DecidableEq, Repr

/-- The loop body of `PosterOrchestratorService.get_best_poster`
(`for pref in self.preferences`), paired with the trace of issued
queries.  A `"fanart"` preference queries the Fanart adapter and rewraps a
hit as `PosterResult(result.url, "fanart")`; the four known TMDB modes
query the TMDB adapter; any other preference string matches neither
branch and issues no query. -/
def resolveLoop (tmdbGet : Nat → String → Option PosterResult)
    (fanartGet : Nat → Option PosterResult) (n : Nat) :
    List String → Option PosterResult × List Query
  | [] => (none, [])
  | pref :: rest =>
    if pref == "fanart" then
      match fanartGet n with
      | some r => (some { url := r.url, type := "fanart" }, [Query.fanartQ n])
      | none =>
        ((resolveLoop tmdbGet fanartGet n rest).1,
          Query.fanartQ n :: (resolveLoop tmdbGet fanartGet n rest).2)
    else if pref == "textless" || pref == "tmdb_en" || pref == "tmdb_pt"
        || pref == "tmdb_any" then
      match tmdbGet n pref with
      | some r => (some r, [Query.tmdbQ n pref])
      | none =>
        ((resolveLoop tmdbGet fanartGet n rest).1,
          Query.tmdbQ n pref :: (resolveLoop tmdbGet fanartGet n rest).2)
    else resolveLoop tmdbGet fanartGet n rest

/-- `PosterOrchestratorService.get_best_poster` with its query trace.
`if not tmdb_id: return None` fires on a missing subject id *and* on the
falsy value 0, before any provider is queried. -/
def get_best_posterT (tmdbGet : Nat → String → Option PosterResult)
    (fanartGet : Nat → Option PosterResult) (preferences : List String)
    (item : MediaItem) : Option PosterResult × List Query :=
  match item.tmdb_id with
  | none => (none, [])
  | some n => if n == 0 then (none, []) else resolveLoop tmdbGet fanartGet n preferences

/-- `PosterOrchestratorService.get_best_poster`: the returned candidate. -/
def get_best_poster (tmdbGet : Nat → String → Option PosterResult)
    (fanartGet : Nat → Option PosterResult) (preferences : List String)
    (item : MediaItem) : Option PosterResult :=
  (get_best_posterT tmdbGet fanartGet preferences item).1

/-- `PosterOrchestratorService.create_task`: build a `PosterTask` with the
chosen poster URL and type, status `"selected"` on a hit and
`"not_found"` otherwise. -/
def create_task (tmdbGet : Nat → String → Option PosterResult)
    (fanartGet : Nat → Option PosterResult) (preferences : List String)
    (item : MediaItem) : PosterTask :=
  match get_best_poster tmdbGet fanartGet preferences item with
  | some poster =>
    { item := item, chosen_url := some poster.url, source_type := some poster.type,
      status := "selected" }
  | none => { item := item, status := "not_found" }

/-- The provider designated for one preference string, following the spec
words for C4: `"fanart"` routes to the secondary provider, the four known
TMDB mode tags route to the primary provider, anything else designates no
provider. -/
def designate (n : Nat) (pref : String) : Option Query :=
  if pref == "fanart" then some (Query.fanartQ n)
  else if pref == "textless" || pref == "tmdb_en" || pref == "tmdb_pt"
      || pref == "tmdb_any" then some (Query.tmdbQ n pref)
  else none

/-- The answer a designated provider/mode pair gives (a Fanart hit is
rewrapped with mode tag `"fanart"`, as in the source). -/
def answerQ (tmdbGet : Nat → String → Option PosterResult)
    (fanartGet : Nat → Option PosterResult) : Query → Option PosterResult
  | Query.fanartQ n => (fanartGet n).map (fun r => { url := r.url, type := "fanart" })
  | Query.tmdbQ n mode => tmdbGet n mode

/-- The claimed resolution, following the spec words for C4: walk the
designated provider/mode pairs in order and return the answer of the
first pair with a non-absent answer, querying nothing after that hit. -/
def specResolveQ (tmdbGet : Nat → String → Option PosterResult)
    (fanartGet : Nat → Option PosterResult) :
    List Query → Option PosterResult × List Query
  | [] => (none, [])
  | q :: qs =>
    match answerQ tmdbGet fanartGet q with
    | some r => (some r, [q])
    | none =>
      ((specResolveQ tmdbGet fanartGet qs).1, q :: (specResolveQ tmdbGet fanartGet qs).2)

theorem resolveLoop_eq_spec (tmdbGet : Nat → String → Option PosterResult)
    (fanartGet : Nat → Option PosterResult) (n : Nat) (prefs : List String) :
    resolveLoop tmdbGet fanartGet n prefs
      = specResolveQ tmdbGet fanartGet (prefs.filterMap (designate n)) := by
  induction prefs with
  | nil => rfl
  | cons pref rest ih =>
    by_cases hf : pref = "fanart"
    · subst hf
      simp only [resolveLoop, designate, List.filterMap_cons]
      norm_num [specResolveQ, answerQ]
      cases fanartGet n with
      | none => simp [ih]
      | some r => simp
    · by_cases ht : pref = "textless" ∨ pref = "tmdb_en" ∨ pref = "tmdb_pt"
          ∨ pref = "tmdb_any"
      · have hb : (pref == "textless" || pref == "tmdb_en" || pref == "tmdb_pt"
            || pref == "tmdb_any") = true := by
          rcases ht with h | h | h | h <;> simp [h]
        simp only [resolveLoop, designate, List.filterMap_cons,
          beq_iff_eq, if_neg hf, hb, if_pos rfl]
        simp only [specResolveQ, answerQ]
        cases tmdbGet n pref with
        | none => simp [ih]
        | some r => simp
      · have hb : (pref == "textless" || pref == "tmdb_en" || pref == "tmdb_pt"
            || pref == "tmdb_any") = false := by
          push_neg at ht
          obtain ⟨h1, h2, h3, h4⟩ := ht
          simp [h1, h2, h3, h4]
        simp only [resolveLoop, designate, List.filterMap_cons,
          beq_iff_eq, if_neg hf, hb]
        simp only [Bool.false_eq_true, if_false, ih]

theorem specResolveQ_stops_at_hit (tmdbGet : Nat → String → Option PosterResult)
    (fanartGet : Nat → Option PosterResult) (qs : List Query) (r : PosterResult)
    (h : (specResolveQ tmdbGet fanartGet qs).1 = some r) :
    ∃ t0 qL, (specResolveQ tmdbGet fanartGet qs).2 = t0 ++ [qL] ∧
      answerQ tmdbGet fanartGet qL = some r ∧
      ∀ q ∈ t0, answerQ tmdbGet fanartGet q = none := by
  induction qs with
  | nil => simp [specResolveQ] at h
  | cons q rest ih =>
    cases ha : answerQ tmdbGet fanartGet q with
    | some r0 =>
      have hfst : (specResolveQ tmdbGet fanartGet (q :: rest)).1 = some r0 := by
        unfold specResolveQ
        rw [ha]
      have hsnd : (specResolveQ tmdbGet fanartGet (q :: rest)).2 = [q] := by
        unfold specResolveQ
        rw [ha]
      have hr : r0 = r := by
        rw [hfst] at h
        exact Option.some_inj.mp h
      exact ⟨[], q, by simp [hsnd], by rw [ha, hr], by simp⟩
    | none =>
      have hfst : (specResolveQ tmdbGet fanartGet (q :: rest)).1
          = (specResolveQ tmdbGet fanartGet rest).1 := by
        conv_lhs => unfold specResolveQ
        rw [ha]
      have hsnd : (specResolveQ tmdbGet fanartGet (q :: rest)).2
          = q :: (specResolveQ tmdbGet fanartGet rest).2 := by
        conv_lhs => unfold specResolveQ
        rw [ha]
      rw [hfst] at h
      obtain ⟨t0, qL, ht, hqL, ht0⟩ := ih h
      refine ⟨q :: t0, qL, ?_, hqL, ?_⟩
      · rw [hsnd, ht]
        rfl
      · intro x hx
        rcases List.mem_cons.mp hx with hxq | hxt
        · subst hxq
          exact ha
        · exact ht0 x hxt

/-- **C4 (counterexample).** The claim says the resolver returns the
candidate of the first preference whose designated provider returns a
non-absent result, and returns absent without queries only when the item
has *no* subject id.  Here the item *has* a subject id — the falsy value
0 — the sole preference's designated provider has a candidate, yet
`if not tmdb_id` fires and the resolver returns absent without querying
anything. -/
theorem get_best_poster_counterexample :
    get_best_posterT (fun _ _ => some { url := "U", type := "tmdb_any" }) (fun _ => none)
        ["tmdb_any"] { plex_id := some 1, title := "Z", year := none, tmdb_id := some 0 }
      = (none, []) ∧
    (fun (_ : Nat) (_ : String) =>
        some { url := "U", type := "tmdb_any" } : Nat → String → Option PosterResult)
      0 "tmdb_any" = some { url := "U", type := "tmdb_any" } :=
  ⟨rfl, rfl⟩

/-- **C4 (amended).** For every item and ordered preference list: if the
item's subject id is absent or 0 (Python falsiness), the resolver returns
absent having queried no provider; otherwise it behaves exactly as the
first-hit scan over the designated provider/mode pairs (preferences
designating no provider are skipped without a query), and whenever it
returns a candidate, its query trace ends at the pair that produced the
hit — every earlier query answered absent and no pair is queried after
the hit. -/
theorem get_best_poster_resolution (tmdbGet : Nat → String → Option PosterResult)
    (fanartGet : Nat → Option PosterResult) (prefs : List String) (item : MediaItem) :
    (pyTruthyNat item.tmdb_id = false →
      get_best_posterT tmdbGet fanartGet prefs item = (none, [])) ∧
    (∀ n, item.tmdb_id = some n → n ≠ 0 →
      get_best_posterT tmdbGet fanartGet prefs item
        = specResolveQ tmdbGet fanartGet (prefs.filterMap (designate n))) ∧
    (∀ r, (get_best_posterT tmdbGet fanartGet prefs item).1 = some r →
      ∃ t0 qL, (get_best_posterT tmdbGet fanartGet prefs item).2 = t0 ++ [qL] ∧
        answerQ tmdbGet fanartGet qL = some r ∧
        ∀ q ∈ t0, answerQ tmdbGet fanartGet q = none) := by
  refine ⟨?_, ?_, ?_⟩
  · intro hfalsy
    unfold get_best_posterT
    cases hid : item.tmdb_id with
    | none => rfl
    | some n =>
      rw [hid] at hfalsy
      unfold pyTruthyNat at hfalsy
      have hn : n = 0 := by
        by_cases h0 : n = 0
        · exact h0
        · simp [h0] at hfalsy
      subst hn
      rfl
  · intro n hid hn
    unfold get_best_posterT
    simp only [hid]
    rw [if_neg (by simpa using hn)]
    exact resolveLoop_eq_spec tmdbGet fanartGet n prefs
  · intro r hr
    cases hid : item.tmdb_id with
    | none =>
      unfold get_best_posterT at hr
      simp only [hid] at hr
      simp at hr
    | some n =>
      unfold get_best_posterT at hr ⊢
      simp only [hid] at hr ⊢
      by_cases hn : (n == 0) = true
      · rw [if_pos hn] at hr
        simp at hr
      · rw [if_neg hn] at hr ⊢
        rw [resolveLoop_eq_spec tmdbGet fanartGet n prefs] at hr ⊢
        exact specResolveQ_stops_at_hit tmdbGet fanartGet _ r hr

/-- Witness for C4 (amended): item with subject id 603 and preferences
["textless", "fanart", "tmdb_en", "unknown"], where only TMDB mode
"tmdb_en" has a candidate — the resolver returns it, having queried
exactly the TMDB textless, Fanart, and TMDB en pairs in that order (the
unknown preference designates no provider and is never queried). -/
theorem get_best_poster_resolution_witness :
    get_best_posterT
        (fun n mode => if n == 603 && mode == "tmdb_en"
          then some { url := "E", type := "tmdb_en" } else none)
        (fun _ => none) ["textless", "fanart", "tmdb_en", "unknown"]
        { plex_id := some 1, title := "M", year := some 2020, tmdb_id := some 603 }
      = (some { url := "E", type := "tmdb_en" },
         [Query.tmdbQ 603 "textless", Query.fanartQ 603, Query.tmdbQ 603 "tmdb_en"]) :=
  ((get_best_poster_resolution
      (fun n mode => if n == 603 && mode == "tmdb_en"
        then some { url := "E", type := "tmdb_en" } else none)
      (fun _ => none) ["textless", "fanart", "tmdb_en", "unknown"]
      { plex_id := some 1, title := "M", year := some 2020,
        tmdb_id := some 603 }).2.1 603 rfl (by decide)).trans rfl

/-! ## Job State store (`utils/db.py`)

The `poster_jobs` table (`UNIQUE(media_id)`) as a list of rows;
`DATETIME('now')` is the `now` parameter (seconds). -/

structure JobRow where
  media_id : String
  tmdb_id : Option Nat
  source_used : Option String
  poster_type : Option String
  status : String
  retry_count : Nat
  last_error : Option String
  last_attempt_at : Option Int
  next_retry_at : Option Int
  created_at : Int
  updated_at : Int
deriving DecidableEq, Repr

/-- `PosterJobStore.upsert`: `INSERT ... ON CONFLICT(media_id) DO UPDATE`;
a fresh row starts with the schema defaults (`retry_count` 0, null error
and timers, `created_at`/`updated_at` now). -/
def jobs_upsert (now : Int) (jobs : List JobRow) (mediaId : String)
    (tmdbId : Option Nat) (sourceUsed posterType : Option String)
    (status : String) : List JobRow :=
  if jobs.any (fun r => r.media_id == mediaId) then
    jobs.map (fun r =>
      if r.media_id == mediaId then
        { r with tmdb_id := tmdbId, source_used := sourceUsed,
                 poster_type := posterType, status := status, updated_at := now }
      else r)
  else
    jobs ++ [{ media_id := mediaId, tmdb_id := tmdbId, source_used := sourceUsed,
               poster_type := posterType, status := status, retry_count := 0,
               last_error := none, last_attempt_at := none, next_retry_at := none,
               created_at := now, updated_at := now }]

/-- `PosterJobStore.update_status`: `retry_in` defaults to 6 hours; a
transition into `failed`/`not_found` sets `next_retry_at` to now plus that
delta and increments `retry_count`, any other status clears the timer and
leaves the count. -/
def jobs_update_status (now : Int) (jobs : List JobRow) (mediaId : String)
    (status : String) (error : Option String) (retryIn : Option Int) : List JobRow :=
  let retryDelta := retryIn.getD (6 * 3600)
  let shouldRetry := status == "failed" || status == "not_found"
  let nextRetry : Option Int := if shouldRetry then some (now + retryDelta) else none
  jobs.map (fun r =>
    if r.media_id == mediaId then
      { r with status := status, last_error := error, last_attempt_at := some now,
               next_retry_at := nextRetry,
               retry_count := if shouldRetry then r.retry_count + 1 else r.retry_count,
               updated_at := now }
    else r)

/-- `PosterJobStore.mark_uploaded`: terminal success — status `uploaded`,
error and retry timer cleared, retry count reset to zero. -/
def jobs_mark_uploaded (now : Int) (jobs : List JobRow) (mediaId : String) : List JobRow :=
  jobs.map (fun r =>
    if r.media_id == mediaId then
      { r with status := "uploaded", last_error := none, next_retry_at := none,
               retry_count := 0, last_attempt_at := some now, updated_at := now }
    else r)

/-! ## Workflow coordinator (`services/poster_workflow.py`) -/

/-- A raised Python exception (only `TypeError` arises in this model);
`message` is `str(exc)`. -/
inductive PyErr where
  | typeError (msg : String)
deriving DecidableEq, Repr

def PyErr.message : PyErr → String
  | typeError m => m

/-- The formal parameters of `PosterJobStore.upsert` (besides `self`). -/
def upsertParams : List String :=
  ["media_id", "tmdb_id", "source_used", "poster_type", "status"]

/-- The keyword arguments `PosterWorkflow.process_item` passes to
`self.job_store.upsert` (lines 59–66 of `poster_workflow.py`). -/
def upsertCallKwargs : List String :=
  ["media_id", "tmdb_id", "source_used", "poster_type", "status", "quality_selection"]

/-- Python keyword-argument binding: a keyword that matches no formal
parameter raises `TypeError` before the callee body runs. -/
def bindKeywords (params kwargs : List String) : Except PyErr Unit :=
  match kwargs.find? (fun k => !params.contains k) with
  | some k =>
    Except.error (PyErr.typeError ("upsert() got an unexpected keyword argument " ++ k))
  | none => Except.ok ()

/-- Python truthiness of an `Optional[int]` that may be negative. -/
def pyTruthyInt : Option Int → Bool
  | none => false
  | some n => !(n == 0)

/-- `PosterWorkflow._media_key`: catalogue id if not None, else a
synthesized `tmdb-` key, else the title. -/
def media_key (item : MediaItem) : String :=
  match item.plex_id with
  | some p => toString p
  | none =>
    match item.tmdb_id with
    | some t => "tmdb-" ++ toString t
    | none => item.title

/-- `PosterWorkflow._source_from_type`. -/
def source_from_type (sourceType : Option String) : Option String :=
  match sourceType with
  | none => none
  | some s =>
    if s == "" then none
    else if s.startsWith "fanart" then some "fanart"
    else some "tmdb"

/-- `PosterWorkflow._build_filename`:
`f"{item.tmdb_id or item.plex_id or item.title}"` with `/` replaced by `_`,
then `_{source_type or "poster"}.jpg`. -/
def build_filename (item : MediaItem) (task : PosterTask) : String :=
  let base :=
    if pyTruthyNat item.tmdb_id then toString (item.tmdb_id.getD 0)
    else if pyTruthyInt item.plex_id then toString (item.plex_id.getD 0)
    else item.title
  (base.replace "/" "_") ++ "_" ++ pyOrStr task.source_type "poster" ++ ".jpg"

/-- `config.get("poster_preferences") or ["textless"]` in
`PosterWorkflow.__init__` (a missing key and an empty list are both
falsy). -/
def workflow_preferences (cfg : Option (List String)) : List String :=
  match cfg with
  | none => ["textless"]
  | some l => if l.isEmpty then ["textless"] else l

/-- `self.desired_type = preferences[0]` (the list is non-empty by
construction). -/
def desired_type (cfg : Option (List String)) : String :=
  (workflow_preferences cfg).headD "textless"

/-- `config.get("poster_preferences", ["textless", "tmdb_en", "tmdb_any"])`
in `PosterOrchestratorService.__init__`. -/
def orchestrator_preferences (cfg : Option (List String)) : List String :=
  cfg.getD ["textless", "tmdb_en", "tmdb_any"]

/-- The external collaborators and configuration of one `PosterWorkflow`:
the two provider adapters, the configured preference list
(`None` = key absent), the overlay settings, the download transport
(`url → filename → local path or error`), the overlay compositor
(`None` = failure), the Plex publish call, and the wall clock. -/
structure Deps where
  tmdbGet : Nat → String → Option PosterResult
  fanartGet : Nat → Option PosterResult
  posterPreferences : Option (List String)
  applyOverlay : Bool
  overlayFilename : String
  download : String → String → Except String String
  overlayApply : String → String → Option String
  plexUpload : PosterTask → Bool
  now : Int

/-- The observable state a workflow run touches: the two persistent
stores and the logs of download attempts and publish calls. -/
structure World where
  jobs : List JobRow
  cache : List CacheRow
  downloads : List (String × String)
  uploads : List PosterTask
deriving DecidableEq, Repr

/-- One `WorkflowResult`. -/
structure WorkflowResult where
  task : PosterTask
  success : Bool
  message : String := ""
deriving DecidableEq, Repr

/-- `PosterWorkflow.process_item`, embedding the full body of lines
55–118: create the task via the orchestrator, compute the media key, call
`job_store.upsert` — which raises `TypeError` at keyword binding, because
the call passes `quality_selection` and `PosterJobStore.upsert` declares
no such parameter — and otherwise (dead code under that binding) run the
not-found / download / overlay / publish / bookkeeping chain. -/
def process_item (d : Deps) (w : World) (item : MediaItem) :
    World × Except PyErr WorkflowResult :=
  let task := create_task d.tmdbGet d.fanartGet
    (orchestrator_preferences d.posterPreferences) item
  let mediaKey := media_key item
  match bindKeywords upsertParams upsertCallKwargs with
  | Except.error e => (w, Except.error e)
  | Except.ok _ =>
    let jobs1 := jobs_upsert d.now w.jobs mediaKey item.tmdb_id
      (source_from_type task.source_type) task.source_type task.status
    let w1 := { w with jobs := jobs1 }
    if task.status != "selected" || !(pyTruthyStr task.chosen_url) then
      let msg := "No poster available"
      let jobs2 := jobs_update_status d.now w1.jobs mediaKey "not_found" (some msg) none
      let w2 := { w1 with jobs := jobs2 }
      (w2, Except.ok { task := task, success := false, message := msg })
    else
      let url := task.chosen_url.getD ""
      let filename := build_filename item task
      let w2 := { w1 with downloads := w1.downloads ++ [(url, filename)] }
      match d.download url filename with
      | Except.error err =>
        let task2 := { task with status := "failed" }
        let jobs3 := jobs_update_status d.now w2.jobs mediaKey "failed" (some err) none
        let w3 := { w2 with jobs := jobs3 }
        (w3, Except.ok { task := task2, success := false, message := err })
      | Except.ok path =>
        let task2 := { task with downloaded_file := some path, status := "downloaded" }
        let jobs3 := jobs_update_status d.now w2.jobs mediaKey "downloaded" none none
        let w3 := { w2 with jobs := jobs3 }
        let task3 :=
          if d.applyOverlay then
            match d.overlayApply path d.overlayFilename with
            | some ov => { task2 with output_file := some ov }
            | none => { task2 with output_file := some path }
          else { task2 with output_file := some path }
        let w4 := { w3 with uploads := w3.uploads ++ [task3] }
        if d.plexUpload task3 then
          let task4 := { task3 with status := "uploaded" }
          let w5 := { w4 with jobs := jobs_mark_uploaded d.now w4.jobs mediaKey }
          let cache6 := save_result w5.cache d.now (item.tmdb_id.getD 0)
            item.media_type (desired_type d.posterPreferences)
            (pyOrStr task4.source_type "unknown") url
          let w6 := if pyTruthyNat item.tmdb_id then { w5 with cache := cache6 } else w5
          (w6, Except.ok { task := task4, success := true })
        else
          let msg := "Upload to Plex failed"
          let task4 := { task3 with status := "failed" }
          let jobs5 := jobs_update_status d.now w4.jobs mediaKey "failed" (some msg)
            (some (6 * 3600))
          let w5 := { w4 with jobs := jobs5 }
          (w5, Except.ok { task := task4, success := false, message := msg })

/-- The `except` arm of `PosterWorkflow.process_items`: an exception from
one item becomes a synthetic failed result carrying `str(exc)`. -/
def wrap_step (step : World → MediaItem → World × Except PyErr WorkflowResult)
    (w : World) (item : MediaItem) : World × WorkflowResult :=
  match step w item with
  | (w2, Except.ok res) => (w2, res)
  | (w2, Except.error e) =>
    (w2, { task := { item := item, status := "failed" }, success := false,
           message := e.message })

/-- The loop of `PosterWorkflow.process_items` over `self.process_item`
(embedded as the `step` parameter): sequential, one result appended per
item. -/
def process_items_from
    (step : World → MediaItem → World × Except PyErr WorkflowResult) :
    World → List MediaItem → World × List WorkflowResult
  | w, [] => (w, [])
  | w, item :: rest =>
    ((process_items_from step (wrap_step step w item).1 rest).1,
      (wrap_step step w item).2 ::
        (process_items_from step (wrap_step step w item).1 rest).2)

/-- `PosterWorkflow.process_items`. -/
def process_items (d : Deps) (w : World) (items : List MediaItem) :
    World × List WorkflowResult :=
  process_items_from (process_item d) w items

/-! ## `PosterWorkflow._download` (lines 131–144)

The filesystem is a map from paths to contents; the transport outcome is
a parameter: either the whole body streams to the target, or an exception
fires before the target is opened (`httpx.stream`/`raise_for_status`), or
it fires mid-stream after the target was opened and partially written.
The `except` arm deletes the target if it exists and re-raises. -/

inductive DownloadOutcome where
  | success (content : String)
  | httpError (msg : String)
  | streamError (partWritten : String) (msg : String)
deriving DecidableEq, Repr

def fsSet (fs : String → Option String) (k v : String) : String → Option String :=
  fun x => if x == k then some v else fs x

def fsDelete (fs : String → Option String) (k : String) : String → Option String :=
  fun x => if x == k then none else fs x

/-- `PosterWorkflow._download`: write `cache_dir / filename`; on any
exception, unlink the target if it exists, then re-raise. -/
def download_to_cache (fs : String → Option String) (cacheDir _url filename : String)
    (outcome : DownloadOutcome) : (String → Option String) × Except String String :=
  let target := cacheDir ++ "/" ++ filename
  match outcome with
  | DownloadOutcome.success content => (fsSet fs target content, Except.ok target)
  | DownloadOutcome.httpError msg =>
    let fs1 := if (fs target).isSome then fsDelete fs target else fs
    (fs1, Except.error msg)
  | DownloadOutcome.streamError partWritten msg =>
    let fsOpened := fsSet fs target partWritten
    let fs1 := if (fsOpened target).isSome then fsDelete fsOpened target else fsOpened
    (fs1, Except.error msg)


/-- **C2.** For every item, every dependency set, and every starting
state, a direct `process_item` call raises
`TypeError: upsert() got an unexpected keyword argument quality_selection`
at keyword binding of its initial Job State upsert, and the exception
propagates before any job-state write, download, decoration, publish, or
Outcome Cache write: the world comes back unchanged. -/
theorem process_item_raises_typeerror (d : Deps) (w : World) (item : MediaItem) :
    process_item d w item
      = (w, Except.error (PyErr.typeError
          "upsert() got an unexpected keyword argument quality_selection")) := rfl

/-- **C1 (code bug).** The spec's end-to-end scenario evaluated on the
code: item with subject id 603, the provider has a textless candidate at
URL X (the resolver does select it — first conjunct), download and
publish would succeed — yet `process_item` raises `TypeError` at the
initial upsert and returns with the world unchanged: the task never
progresses past selection, and neither an Outcome Cache row nor an
uploaded Job State row is written. -/
theorem process_item_end_to_end_bug :
    create_task
        (fun n mode => if n == 603 && mode == "textless"
          then some { url := "X", type := "textless" } else none)
        (fun _ => none) ["textless"]
        { plex_id := some 1, title := "M", year := some 2020, tmdb_id := some 603 }
      = { item := { plex_id := some 1, title := "M", year := some 2020,
                    tmdb_id := some 603 },
          chosen_url := some "X", source_type := some "textless",
          status := "selected" } ∧
    process_item
        { tmdbGet := fun n mode => if n == 603 && mode == "textless"
            then some { url := "X", type := "textless" } else none,
          fanartGet := fun _ => none,
          posterPreferences := some ["textless"],
          applyOverlay := false,
          overlayFilename := "overlay.png",
          download := fun _ fn => Except.ok ("output/posters/" ++ fn),
          overlayApply := fun p _ => some p,
          plexUpload := fun _ => true,
          now := 0 }
        { jobs := [], cache := [], downloads := [], uploads := [] }
        { plex_id := some 1, title := "M", year := some 2020, tmdb_id := some 603 }
      = ({ jobs := [], cache := [], downloads := [], uploads := [] },
         Except.error (PyErr.typeError
           "upsert() got an unexpected keyword argument quality_selection")) :=
  ⟨rfl, rfl⟩

/-- **C5 (code bug).** The claimed failure bookkeeping never runs: for an
item with a selected candidate whose publish would fail, `process_item`
raises `TypeError` at the initial upsert (first conjunct — the world,
including the Job State table, comes back unchanged, so no status becomes
"failed", no error is persisted, and no retry count is incremented).  The
second conjunct shows the bookkeeping `update_status` itself *would*
perform at the publish-failure call site: status "failed", error
persisted, retry count +1, next retry at now + 6 hours. -/
theorem process_item_publish_failure_bug :
    process_item
        { tmdbGet := fun n mode => if n == 603 && mode == "textless"
            then some { url := "X", type := "textless" } else none,
          fanartGet := fun _ => none,
          posterPreferences := some ["textless"],
          applyOverlay := false,
          overlayFilename := "overlay.png",
          download := fun _ fn => Except.ok ("output/posters/" ++ fn),
          overlayApply := fun p _ => some p,
          plexUpload := fun _ => false,
          now := 1000 }
        { jobs := [], cache := [], downloads := [], uploads := [] }
        { plex_id := some 1, title := "M", year := some 2020, tmdb_id := some 603 }
      = ({ jobs := [], cache := [], downloads := [], uploads := [] },
         Except.error (PyErr.typeError
           "upsert() got an unexpected keyword argument quality_selection")) ∧
    jobs_update_status 1000
        [{ media_id := "1", tmdb_id := some 603, source_used := some "tmdb",
           poster_type := some "textless", status := "downloaded", retry_count := 0,
           last_error := none, last_attempt_at := none, next_retry_at := none,
           created_at := 0, updated_at := 0 }] "1" "failed"
        (some "Upload to Plex failed") (some (6 * 3600))
      = [{ media_id := "1", tmdb_id := some 603, source_used := some "tmdb",
           poster_type := some "textless", status := "failed", retry_count := 1,
           last_error := some "Upload to Plex failed", last_attempt_at := some 1000,
           next_retry_at := some 22600, created_at := 0, updated_at := 1000 }] :=
  ⟨rfl, rfl⟩

/-- **C3.** The batch runner yields exactly one result per input item, in
input order: the i-th result is the wrapped outcome of running the
per-item step in the state left by the previous items, and a step that
raises on one item is converted into a failure result carrying the
exception's message while the remaining items are still processed (the
characterization holds at every index). -/
theorem process_items_spec
    (step : World → MediaItem → World × Except PyErr WorkflowResult)
    (w : World) (items : List MediaItem) :
    ((process_items_from step w items).2.length = items.length) ∧
    (∀ i item, items.get? i = some item →
      (process_items_from step w items).2.get? i
        = some (wrap_step step (process_items_from step w (items.take i)).1 item).2) ∧
    (∀ i item e, items.get? i = some item →
      (step (process_items_from step w (items.take i)).1 item).2 = Except.error e →
      (process_items_from step w items).2.get? i
        = some { task := { item := item, status := "failed" }, success := false,
                 message := e.message }) := by
  have keylen : ∀ (l : List MediaItem) (w0 : World),
      (process_items_from step w0 l).2.length = l.length := by
    intro l
    induction l with
    | nil => intro w0; rfl
    | cons a rest ih =>
      intro w0
      simp [process_items_from, ih]
  have key : ∀ (l : List MediaItem) (w0 : World) (i : Nat) (item : MediaItem),
      l.get? i = some item →
      (process_items_from step w0 l).2.get? i
        = some (wrap_step step (process_items_from step w0 (l.take i)).1 item).2 := by
    intro l
    induction l with
    | nil =>
      intro w0 i item hit
      simp at hit
    | cons a rest ih =>
      intro w0 i item hit
      cases i with
      | zero =>
        have ha : a = item := by simpa using hit
        subst ha
        rfl
      | succ i =>
        have hit2 : rest.get? i = some item := by simpa using hit
        have h2 := ih ((wrap_step step w0 a).1) i item hit2
        simpa [process_items_from] using h2
  refine ⟨keylen items w, key items w, ?_⟩
  intro i item e hit hstep
  rw [key items w i item hit]
  unfold wrap_step
  cases hsp : step (process_items_from step w (items.take i)).1 item with
  | mk w2 r =>
    rw [hsp] at hstep
    have hr : r = Except.error e := hstep
    subst hr
    rfl

/-- Witness for C3, realizing the spec scenario: a batch of three items
where the step raises an unexpected fault ("boom") on item 2 only — three
results, in order; item 2's result is a failure carrying "boom"; items 1
and 3 show their own (successful) outcomes. -/
theorem process_items_spec_witness :
    ((process_items_from
        (fun w it => if it.title == "B"
          then (w, Except.error (PyErr.typeError "boom"))
          else (w, Except.ok { task := { item := it, status := "uploaded" },
                               success := true }))
        { jobs := [], cache := [], downloads := [], uploads := [] }
        [{ plex_id := some 1, title := "A", year := none, tmdb_id := none },
         { plex_id := some 2, title := "B", year := none, tmdb_id := none },
         { plex_id := some 3, title := "C", year := none, tmdb_id := none }]).2.length
      = 3) ∧
    ((process_items_from
        (fun w it => if it.title == "B"
          then (w, Except.error (PyErr.typeError "boom"))
          else (w, Except.ok { task := { item := it, status := "uploaded" },
                               success := true }))
        { jobs := [], cache := [], downloads := [], uploads := [] }
        [{ plex_id := some 1, title := "A", year := none, tmdb_id := none },
         { plex_id := some 2, title := "B", year := none, tmdb_id := none },
         { plex_id := some 3, title := "C", year := none, tmdb_id := none }]).2.get? 1
      = some { task := { item := { plex_id := some 2, title := "B", year := none,
                                   tmdb_id := none },
                         status := "failed" },
               success := false, message := "boom" }) ∧
    ((process_items_from
        (fun w it => if it.title == "B"
          then (w, Except.error (PyErr.typeError "boom"))
          else (w, Except.ok { task := { item := it, status := "uploaded" },
                               success := true }))
        { jobs := [], cache := [], downloads := [], uploads := [] }
        [{ plex_id := some 1, title := "A", year := none, tmdb_id := none },
         { plex_id := some 2, title := "B", year := none, tmdb_id := none },
         { plex_id := some 3, title := "C", year := none, tmdb_id := none }]).2.get? 0
      = some { task := { item := { plex_id := some 1, title := "A", year := none,
                                   tmdb_id := none },
                         status := "uploaded" },
               success := true, message := "" }) ∧
    ((process_items_from
        (fun w it => if it.title == "B"
          then (w, Except.error (PyErr.typeError "boom"))
          else (w, Except.ok { task := { item := it, status := "uploaded" },
                               success := true }))
        { jobs := [], cache := [], downloads := [], uploads := [] }
        [{ plex_id := some 1, title := "A", year := none, tmdb_id := none },
         { plex_id := some 2, title := "B", year := none, tmdb_id := none },
         { plex_id := some 3, title := "C", year := none, tmdb_id := none }]).2.get? 2
      = some { task := { item := { plex_id := some 3, title := "C", year := none,
                                   tmdb_id := none },
                         status := "uploaded" },
               success := true, message := "" }) :=
  ⟨(process_items_spec _ _ _).1,
   (process_items_spec _
      { jobs := [], cache := [], downloads := [], uploads := [] }
      [{ plex_id := some 1, title := "A", year := none, tmdb_id := none },
       { plex_id := some 2, title := "B", year := none, tmdb_id := none },
       { plex_id := some 3, title := "C", year := none, tmdb_id := none }]).2.2 1
     { plex_id := some 2, title := "B", year := none, tmdb_id := none }
     (PyErr.typeError "boom") rfl rfl,
   ((process_items_spec _
      { jobs := [], cache := [], downloads := [], uploads := [] }
      [{ plex_id := some 1, title := "A", year := none, tmdb_id := none },
       { plex_id := some 2, title := "B", year := none, tmdb_id := none },
       { plex_id := some 3, title := "C", year := none, tmdb_id := none }]).2.1 0
     { plex_id := some 1, title := "A", year := none, tmdb_id := none } rfl).trans rfl,
   ((process_items_spec _
      { jobs := [], cache := [], downloads := [], uploads := [] }
      [{ plex_id := some 1, title := "A", year := none, tmdb_id := none },
       { plex_id := some 2, title := "B", year := none, tmdb_id := none },
       { plex_id := some 3, title := "C", year := none, tmdb_id := none }]).2.1 2
     { plex_id := some 3, title := "C", year := none, tmdb_id := none } rfl).trans rfl⟩

/-- **C10 (counterexample).** The claim says a failed download "leaves the
local cache directory unchanged at that path".  If a file already existed
at the deterministic target path (for instance from an earlier successful
run) and the new download fails before writing (HTTP error), the `except`
arm still unlinks the target: afterwards nothing is at the path, although
"old" was there before — the path *changed*. -/
theorem download_to_cache_counterexample :
    ((download_to_cache
        (fun x => if x == "output/posters/603_textless.jpg" then some "old" else none)
        "output/posters" "http://img/x.jpg" "603_textless.jpg"
        (DownloadOutcome.httpError "HTTP 502")).1 "output/posters/603_textless.jpg"
      = none) ∧
    ((fun x => if x == "output/posters/603_textless.jpg" then some "old" else none)
        "output/posters/603_textless.jpg" = some "old") :=
  ⟨rfl, rfl⟩

/-- **C10 (amended).** If the download helper fails — an HTTP error before
the target is opened, or a fault while streaming bytes after it was
opened — then no file remains at the deterministic target path afterwards
(any partially written file, and any file that already existed there, is
deleted) and the error propagates. -/
theorem download_to_cache_failure_clears_target (fs : String → Option String)
    (cacheDir url filename msg partWritten : String) :
    ((download_to_cache fs cacheDir url filename (DownloadOutcome.httpError msg)).1
        (cacheDir ++ "/" ++ filename) = none ∧
     (download_to_cache fs cacheDir url filename (DownloadOutcome.httpError msg)).2
        = Except.error msg) ∧
    ((download_to_cache fs cacheDir url filename
          (DownloadOutcome.streamError partWritten msg)).1
        (cacheDir ++ "/" ++ filename) = none ∧
     (download_to_cache fs cacheDir url filename
          (DownloadOutcome.streamError partWritten msg)).2
        = Except.error msg) := by
  refine ⟨⟨?_, rfl⟩, ⟨?_, rfl⟩⟩
  · show (if (fs (cacheDir ++ "/" ++ filename)).isSome
        then fsDelete fs (cacheDir ++ "/" ++ filename) else fs)
        (cacheDir ++ "/" ++ filename) = none
    by_cases h : (fs (cacheDir ++ "/" ++ filename)).isSome
    · rw [if_pos h]
      simp [fsDelete]
    · rw [if_neg h]
      exact Option.not_isSome_iff_eq_none.mp h
  · show (if ((fsSet fs (cacheDir ++ "/" ++ filename) partWritten)
            (cacheDir ++ "/" ++ filename)).isSome
        then fsDelete (fsSet fs (cacheDir ++ "/" ++ filename) partWritten)
          (cacheDir ++ "/" ++ filename)
        else fsSet fs (cacheDir ++ "/" ++ filename) partWritten)
        (cacheDir ++ "/" ++ filename) = none
    have hopen : (fsSet fs (cacheDir ++ "/" ++ filename) partWritten)
        (cacheDir ++ "/" ++ filename) = some partWritten := by
      simp [fsSet]
    rw [hopen]
    simp [fsDelete]

end Posteract
